import Mathlib

/-!
Shallow embedding of `app/app_dash.py` (Movie Performance and Sentiment
Analyzer).  Pure fragments of the program are translated into executable
Lean definitions:

* `smooth_line` models the smoothing helper (lines 13-21).  The scipy
  spline fit is an external collaborator, so the fitted curve evaluator is
  an explicit function argument; every structural aspect (the `pd.notna`
  mask, the `len(x) >= 3` branch, `np.linspace`, the `pd.to_datetime`
  conversion of the resampled x, the fallback return) is embedded.
* `parseDate` / `formatDate` model `pd.to_datetime(format="%b %d, %Y",
  errors="coerce")` (strict strptime match with calendar validation and
  the pandas nanosecond-timestamp bounds; failures become `none`) and
  `Series.dt.strftime("%b %d, %Y")`.
* `update_graph_table` models the dataframe pipeline of `update_graph`
  (lines 63-80): date coercion, `sort_values` (nulls last), sentiment
  coercion, formatted-date column.  The source sorts between the date
  coercion and the two later per-row steps; since those steps neither read
  another row nor modify `release_date`, they commute with the sort and
  are folded into `loadRow`.
* `update_graph` models the four-trace figure construction (lines 82-144),
  `display_hover_data` the detail panel (lines 149-253), and `startup` the
  module-level directory scan and layout default (lines 26-48).

Numbers are `ℚ` (exact arithmetic in place of float64), missing values are
`none` / `Cell.na`, timestamps are nanosecond epochs computed by the civil
calendar day-count formula.
-/

namespace MovieDash

/-- Scalar cell of the dataframe: a string, a numeric value, or a missing
value (NaN). -/
inductive Cell where
  | str (s : String)
  | num (q : ℚ)
  | na
  deriving DecidableEq, Repr

/-- Calendar date, as produced by parsing a `release_date` string. -/
structure Date where
  year : ℕ
  month : ℕ
  day : ℕ
  deriving DecidableEq, Repr

/-- Gregorian leap-year rule. -/
def isLeap (y : ℕ) : Bool :=
  (y % 4 == 0 && y % 100 != 0) || y % 400 == 0

/-- Number of days of month `m` in year `y`. -/
def daysInMonth (y m : ℕ) : ℕ :=
  if m = 2 then (if isLeap y then 29 else 28)
  else if m = 4 ∨ m = 6 ∨ m = 9 ∨ m = 11 then 30
  else 31

/-- Decimal serialisation `yyyymmdd` of a date, used to compare against the
pandas `Timestamp` range. -/
def serial (d : Date) : ℕ :=
  d.year * 10000 + d.month * 100 + d.day

/-- Dates representable as pandas nanosecond timestamps: midnight of the
date must lie in [`Timestamp.min`, `Timestamp.max`], i.e. between
1677-09-22 and 2262-04-11; outside this range `pd.to_datetime(...,
errors="coerce")` yields `NaT`. -/
def inBounds (d : Date) : Prop :=
  16770922 ≤ serial d ∧ serial d ≤ 22620411

instance (d : Date) : Decidable (inBounds d) := by
  unfold inBounds; infer_instance

/-- Dates accepted by the loader: calendar-valid and within the pandas
timestamp range. -/
def validDate (d : Date) : Prop :=
  1 ≤ d.month ∧ d.month ≤ 12 ∧ 1 ≤ d.day ∧ d.day ≤ daysInMonth d.year d.month ∧ inBounds d

instance (d : Date) : Decidable (validDate d) := by
  unfold validDate; infer_instance

/-- Abbreviated month name used by `%b`, 1-indexed. -/
def monthChars : ℕ → List Char
  | 1 => ['J', 'a', 'n']
  | 2 => ['F', 'e', 'b']
  | 3 => ['M', 'a', 'r']
  | 4 => ['A', 'p', 'r']
  | 5 => ['M', 'a', 'y']
  | 6 => ['J', 'u', 'n']
  | 7 => ['J', 'u', 'l']
  | 8 => ['A', 'u', 'g']
  | 9 => ['S', 'e', 'p']
  | 10 => ['O', 'c', 't']
  | 11 => ['N', 'o', 'v']
  | 12 => ['D', 'e', 'c']
  | _ => []

/-- Case-insensitive prefix match of a pattern against the input, as
strptime matches month names. -/
def matchCI : List Char → List Char → Bool
  | [], _ => true
  | _ :: _, [] => false
  | p :: ps, c :: cs => (Char.toLower c == Char.toLower p) && matchCI ps cs

/-- Match the `%b` directive: one of the twelve abbreviated month names,
case-insensitively; returns the month number and the rest of the input. -/
def parseMonthIdx (cs : List Char) : Option (ℕ × List Char) :=
  if matchCI (monthChars 1) cs then some (1, cs.drop 3)
  else if matchCI (monthChars 2) cs then some (2, cs.drop 3)
  else if matchCI (monthChars 3) cs then some (3, cs.drop 3)
  else if matchCI (monthChars 4) cs then some (4, cs.drop 3)
  else if matchCI (monthChars 5) cs then some (5, cs.drop 3)
  else if matchCI (monthChars 6) cs then some (6, cs.drop 3)
  else if matchCI (monthChars 7) cs then some (7, cs.drop 3)
  else if matchCI (monthChars 8) cs then some (8, cs.drop 3)
  else if matchCI (monthChars 9) cs then some (9, cs.drop 3)
  else if matchCI (monthChars 10) cs then some (10, cs.drop 3)
  else if matchCI (monthChars 11) cs then some (11, cs.drop 3)
  else if matchCI (monthChars 12) cs then some (12, cs.drop 3)
  else none

/-- Consume a possibly empty run of spaces. -/
def skipSpaces : List Char → List Char
  | [] => []
  | c :: rest => if c = ' ' then skipSpaces rest else c :: rest

/-- Consume a nonempty run of spaces, as strptime does for whitespace in
the format string. -/
def expectSpace1 : List Char → Option (List Char)
  | [] => none
  | c :: rest => if c = ' ' then some (skipSpaces rest) else none

/-- Numeric value of a digit character. -/
def digitVal (c : Char) : ℕ := c.toNat - 48

/-- Match the `%d` directive: one or two digits (greedy). -/
def parseDay2 : List Char → Option (ℕ × List Char)
  | [] => none
  | c1 :: rest =>
    if c1.isDigit then
      match rest with
      | c2 :: rest2 =>
        if c2.isDigit then some (10 * digitVal c1 + digitVal c2, rest2)
        else some (digitVal c1, rest)
      | [] => some (digitVal c1, [])
    else none

/-- Match the `%Y` directive: exactly four digits. -/
def parseYear4 : List Char → Option (ℕ × List Char)
  | c1 :: c2 :: c3 :: c4 :: rest =>
    if c1.isDigit && c2.isDigit && c3.isDigit && c4.isDigit then
      some (((digitVal c1 * 10 + digitVal c2) * 10 + digitVal c3) * 10 + digitVal c4, rest)
    else none
  | _ => none

/-- Match the literal comma of the format. -/
def expectComma : List Char → Option (List Char)
  | ',' :: rest => some rest
  | _ => none

/-- Parse a character buffer against the format `"%b %d, %Y"`: month name,
whitespace, day, comma, whitespace, four-digit year, end of input;
then validate the day against the month and the date against the
timestamp range (the `Timestamp` constructor raises on both, which
`errors="coerce"` turns into `NaT`). -/
def parseDateChars (cs : List Char) : Option Date :=
  (parseMonthIdx cs).bind fun mr =>
  (expectSpace1 mr.2).bind fun r2 =>
  (parseDay2 r2).bind fun dr =>
  (expectComma dr.2).bind fun r4 =>
  (expectSpace1 r4).bind fun r5 =>
  (parseYear4 r5).bind fun yr =>
  if yr.2 = [] ∧ 1 ≤ dr.1 ∧ dr.1 ≤ daysInMonth yr.1 mr.1 ∧ inBounds ⟨yr.1, mr.1, dr.1⟩ then
    some ⟨yr.1, mr.1, dr.1⟩
  else none

/-- Model of `pd.to_datetime(s, format="%b %d, %Y", errors="coerce")` on a
single value: `none` is the `NaT` sentinel. -/
def parseDate (s : String) : Option Date :=
  parseDateChars s.toList

/-- Two-digit zero-padded decimal rendering, as `%d` formats the day. -/
def pad2 (n : ℕ) : List Char :=
  [Nat.digitChar (n / 10), Nat.digitChar (n % 10)]

/-- Four-digit decimal rendering of the year; within the timestamp range
every year has exactly four digits. -/
def pad4 (n : ℕ) : List Char :=
  [Nat.digitChar (n / 1000), Nat.digitChar (n / 100 % 10),
   Nat.digitChar (n / 10 % 10), Nat.digitChar (n % 10)]

/-- Model of `Timestamp.strftime("%b %d, %Y")`. -/
def formatDate (d : Date) : String :=
  String.mk (monthChars d.month ++ (' ' :: pad2 d.day) ++ (',' :: ' ' :: pad4 d.year))

/-- Days from 1970-01-01 by the standard civil-calendar formula (valid for
positive years, which the timestamp range guarantees). -/
def toEpochDays (d : Date) : ℤ :=
  let y : ℤ := if d.month ≤ 2 then (d.year : ℤ) - 1 else (d.year : ℤ)
  let era : ℤ := y / 400
  let yoe : ℤ := y - era * 400
  let mp : ℤ := ((d.month : ℤ) + 9) % 12
  let doy : ℤ := (153 * mp + 2) / 5 + (d.day : ℤ) - 1
  let doe : ℤ := yoe * 365 + yoe / 4 - yoe / 100 + doy
  era * 146097 + doe - 719468

/-- Nanosecond epoch of midnight of a date, the int64 value underlying a
pandas timestamp. -/
def toEpochNs (d : Date) : ℤ :=
  toEpochDays d * 86400000000000

/-- Numeric value `pd.to_numeric` gives to `NaT`: the int64 sentinel. -/
def NaTNum : ℚ := -9223372036854775808

/-- Model of `pd.to_numeric(df['release_date'])`: nanosecond epoch for a
valid timestamp, the int64 sentinel for `NaT`. -/
def toNumericDate : Option Date → ℚ
  | none => NaTNum
  | some d => (toEpochNs d : ℚ)

/-- Sort key used by `df.sort_values(by='release_date')`: timestamps
compare by epoch and `NaT` sorts last (`na_position='last'`). -/
def dateKey : Option Date → WithTop ℤ
  | none => ⊤
  | some d => (toEpochNs d : WithTop ℤ)

/-- An x-axis value returned by `smooth_line`: the smoothed branch returns
`pd.to_datetime` timestamps, the fallback returns the caller's numeric
epochs unchanged. -/
inductive XVal where
  | datetime (t : ℚ)
  | numeric (t : ℚ)
  deriving DecidableEq, Repr

/-- Boolean-mask indexing `series[mask]` of pandas. -/
def maskFilter {α : Type} : List α → List Bool → List α
  | a :: l, b :: m => if b then a :: maskFilter l m else maskFilter l m
  | _, _ => []

/-- Model of `Series.min()` on a nonempty series (the app only calls it
with at least three elements; the `[]` value is irrelevant junk). -/
def seriesMin : List ℚ → ℚ
  | [] => 0
  | a :: l => l.foldl min a

/-- Model of `Series.max()` on a nonempty series. -/
def seriesMax : List ℚ → ℚ
  | [] => 0
  | a :: l => l.foldl max a

/-- Model of `np.linspace(start, stop, num)` in exact arithmetic: `num`
evenly spaced samples whose first element is `start` and, for `num ≥ 2`,
whose last element is `stop`. -/
def linspace (start stop : ℚ) (num : ℕ) : List ℚ :=
  (List.range num).map (fun (i : ℕ) => start + (stop - start) * (i : ℚ) / ((num : ℚ) - 1))

/-- Model of `smooth_line` (lines 13-21).  `spline` stands for the external
`make_interp_spline` fit: given the valid x and y samples it yields the
curve's value at a point.  The mask keeps exactly the pairs whose y is not
null; with at least three of them the curve is resampled on a `linspace`
grid converted to datetimes, otherwise the filtered pair is returned
unchanged (still numeric). -/
def smooth_line (spline : List ℚ → List (Option ℚ) → ℚ → Option ℚ)
    (x : List ℚ) (y : List (Option ℚ)) (points : ℕ := 300) :
    List XVal × List (Option ℚ) :=
  let valid_data := y.map Option.isSome
  let xv := maskFilter x valid_data
  let yv := maskFilter y valid_data
  if 3 ≤ xv.length then
    let x_smooth := linspace (seriesMin xv) (seriesMax xv) points
    let y_smooth := x_smooth.map (spline xv yv)
    (x_smooth.map XVal.datetime, y_smooth)
  else (xv.map XVal.numeric, yv)

/-- Row of a franchise CSV as `pd.read_csv` delivers it: `release_date` is
the raw string, `performance` is the inferred numeric column (NaN as
`none`), `sentiment_score` is the not-yet-coerced cell, the remaining
columns are opaque cells. -/
structure RawRow where
  title : Cell
  release_date : String
  production_budget : Cell
  box_office : Cell
  profit : Cell
  roi_percentage : Cell
  performance : Option ℚ
  poster_url : Cell
  backdrop_url : Cell
  runtime : Cell
  tagline : Cell
  trailer : Cell
  sentiment_score : Cell
  comment : Cell
  deriving DecidableEq, Repr

/-- Row after the loader pipeline: parsed date, numeric sentiment, and the
derived display column. -/
structure Row where
  title : Cell
  release_date : Option Date
  production_budget : Cell
  box_office : Cell
  profit : Cell
  roi_percentage : Cell
  performance : Option ℚ
  poster_url : Cell
  backdrop_url : Cell
  runtime : Cell
  tagline : Cell
  trailer : Cell
  sentiment_score : Option ℚ
  comment : Cell
  formatted_release_date : Cell
  deriving DecidableEq, Repr

/-- Digits of a nonempty digit string, most significant first. -/
def digitsVal (cs : List Char) : ℕ :=
  cs.foldl (fun acc c => 10 * acc + digitVal c) 0

/-- Decimal-string fragment of `pd.to_numeric(errors="coerce")`: optional
sign, digits, optional fractional part (scientific notation is not
modelled; no claim exercises it). -/
def parseUnsignedQ (cs : List Char) : Option ℚ :=
  let intPart := cs.takeWhile Char.isDigit
  let rest := cs.dropWhile Char.isDigit
  if intPart = [] then none
  else
    match rest with
    | [] => some (digitsVal intPart : ℚ)
    | '.' :: frac =>
      if frac.all Char.isDigit then
        some ((digitsVal intPart : ℚ) + (digitsVal frac : ℚ) / ((10 : ℚ) ^ frac.length))
      else none
    | _ => none

/-- Model of `pd.to_numeric(v, errors="coerce")` on one cell. -/
def to_numeric : Cell → Option ℚ
  | Cell.num q => some q
  | Cell.na => none
  | Cell.str s =>
    match s.toList with
    | '-' :: rest => (parseUnsignedQ rest).map Neg.neg
    | cs => parseUnsignedQ cs

/-- Per-row loader transform of `update_graph` (lines 68-75): coerce the
date, coerce the sentiment score, derive the formatted date column
(`strftime` of `NaT` renders as NaN). -/
def loadRow (r : RawRow) : Row :=
  let d := parseDate r.release_date
  { title := r.title
    release_date := d
    production_budget := r.production_budget
    box_office := r.box_office
    profit := r.profit
    roi_percentage := r.roi_percentage
    performance := r.performance
    poster_url := r.poster_url
    backdrop_url := r.backdrop_url
    runtime := r.runtime
    tagline := r.tagline
    trailer := r.trailer
    sentiment_score := to_numeric r.sentiment_score
    comment := r.comment
    formatted_release_date :=
      match d with
      | some dd => Cell.str (formatDate dd)
      | none => Cell.na }

/-- Row order of `df.sort_values(by='release_date')`. -/
def rowLE (a b : Row) : Prop :=
  dateKey a.release_date ≤ dateKey b.release_date

instance : DecidableRel rowLE := fun a b =>
  inferInstanceAs (Decidable (dateKey a.release_date ≤ dateKey b.release_date))

instance : IsTotal Row rowLE :=
  ⟨fun a b => le_total (dateKey a.release_date) (dateKey b.release_date)⟩

instance : IsTrans Row rowLE :=
  ⟨fun _ _ _ hab hbc => le_trans hab hbc⟩

/-- Loaded, sorted table of `update_graph` (lines 63-75). -/
def update_graph_table (rows : List RawRow) : List Row :=
  List.insertionSort rowLE (rows.map loadRow)

/-- Embed an optional numeric value as a cell (NaN for `none`). -/
def cellOfOpt : Option ℚ → Cell
  | some q => Cell.num q
  | none => Cell.na

/-- Fourteen-column customdata payload attached to both marker traces
(lines 104-106 and 130-132), in source column order. -/
def customRow (r : Row) : List Cell :=
  [r.title, r.formatted_release_date, r.production_budget, r.box_office,
   r.profit, r.roi_percentage, cellOfOpt r.performance, r.poster_url,
   r.backdrop_url, r.runtime, r.tagline, r.trailer,
   cellOfOpt r.sentiment_score, r.comment]

/-- An x-axis value plotted by a trace: either an output of `smooth_line`
or a raw (possibly `NaT`) timestamp column entry. -/
inductive AxisVal where
  | sm (v : XVal)
  | dt (d : Option Date)
  deriving DecidableEq, Repr

/-- One `go.Scatter` trace. -/
structure Trace where
  x : List AxisVal
  y : List (Option ℚ)
  mode : String
  name : String
  color : String
  showlegend : Bool
  legendgroup : String
  customdata : Option (List (List Cell))
  deriving DecidableEq, Repr

/-- Figure construction of `update_graph` (lines 78-144): smoothed
performance line, raw performance markers, smoothed sentiment line, raw
sentiment markers. -/
def update_graph (spline : List ℚ → List (Option ℚ) → ℚ → Option ℚ)
    (rows : List RawRow) : List Trace :=
  let df := update_graph_table rows
  let x_numeric := df.map (fun r => toNumericDate r.release_date)
  let sp := smooth_line spline x_numeric (df.map (fun r => r.performance)) 300
  let ss := smooth_line spline x_numeric (df.map (fun r => r.sentiment_score)) 300
  [{ x := sp.1.map AxisVal.sm, y := sp.2, mode := "lines", name := "Performance",
     color := "#e63946", showlegend := false, legendgroup := "Performance",
     customdata := none },
   { x := df.map (fun r => AxisVal.dt r.release_date), y := df.map (fun r => r.performance),
     mode := "markers", name := "Performance", color := "#e63946", showlegend := true,
     legendgroup := "Performance", customdata := some (df.map customRow) },
   { x := ss.1.map AxisVal.sm, y := ss.2, mode := "lines", name := "Sentiment",
     color := "#457b9d", showlegend := false, legendgroup := "Sentiment",
     customdata := none },
   { x := df.map (fun r => AxisVal.dt r.release_date), y := df.map (fun r => r.sentiment_score),
     mode := "markers", name := "Sentiment", color := "#457b9d", showlegend := true,
     legendgroup := "Sentiment", customdata := some (df.map customRow) }]

/-- Rendered detail panel: the values the hover callback places into the
page (string interpolation of a value is rendering and keeps the value). -/
structure Panel where
  title : Cell
  releaseLine : List Cell
  poster : Cell
  media2 : Cell
  performanceValue : Cell
  sentimentValue : Cell
  production_budget : Option Cell
  box_office : Option Cell
  profit : Option Cell
  roi_percentage : Option Cell
  comment : Option Cell
  deriving DecidableEq, Repr

/-- Model of `display_hover_data` (lines 154-253): the placeholder panel
when nothing is hovered, otherwise extraction of the hovered point's
customdata tuple by fixed positional index. -/
def display_hover_data (hover : Option (List Cell)) : Panel :=
  match hover with
  | none =>
    { title := Cell.str "Hover Over the Graph For More Information"
      releaseLine := [Cell.str "..."]
      poster := Cell.str "https://placehold.co/2000x3000?text=..."
      media2 := Cell.str "https://placehold.co/410x280?text=..."
      performanceValue := Cell.str "-.--"
      sentimentValue := Cell.str "-.--"
      production_budget := none
      box_office := none
      profit := none
      roi_percentage := none
      comment := none }
  | some pt =>
    { title := pt.getD 0 Cell.na
      releaseLine := [pt.getD 1 Cell.na, pt.getD 9 Cell.na, pt.getD 10 Cell.na]
      poster := pt.getD 7 Cell.na
      media2 := pt.getD 11 Cell.na
      performanceValue := pt.getD 6 Cell.na
      sentimentValue := pt.getD 12 Cell.na
      production_budget := some (pt.getD 2 Cell.na)
      box_office := some (pt.getD 3 Cell.na)
      profit := some (pt.getD 4 Cell.na)
      roi_percentage := some (pt.getD 5 Cell.na)
      comment := some (pt.getD 13 Cell.na) }

/-- Suffix test over character lists (model of `str.endswith`). -/
def endsWithL (s pat : String) : Bool :=
  pat.toList.isSuffixOf s.toList

/-- Model of the `franchise_csvs` list comprehension (line 27). -/
def franchise_csvs (files : List String) : List String :=
  files.filter (fun f => endsWithL f "_movies.csv")

/-- Display name of a franchise file (line 31). -/
def displayName (csv : String) : String :=
  (csv.replace "_movies.csv" "").replace "_" " "

/-- Insert into a python dict modelled as an association list: an existing
key is overwritten in place, a new key is appended. -/
def insertKV (l : List (String × String)) (k v : String) : List (String × String) :=
  if l.any (fun p => p.1 = k) then
    l.map (fun p => if p.1 = k then (k, v) else p)
  else l ++ [(k, v)]

/-- Model of the `franchises` dict comprehension (lines 30-33). -/
def franchises (files : List String) : List (String × String) :=
  (franchise_csvs files).foldl (fun acc csv => insertKV acc (displayName csv) ("csvs/" ++ csv)) []

/-- Module-level startup (lines 26-48): list the CSV directory (raising if
it is absent), build the franchise catalog, and take the first dict value
as the dropdown default (raising `IndexError` on an empty catalog).  The
filesystem is the optional directory listing; errors are the exception
names Python would raise. -/
def startup (fs : Option (List String)) : Except String (List (String × String) × String) :=
  match fs with
  | none => Except.error "FileNotFoundError"
  | some files =>
    let fr := franchises files
    match fr.map (fun p => p.2) with
    | [] => Except.error "IndexError"
    | v :: _ => Except.ok (fr, v)

/-! ### Helper lemmas about the mask filter -/

theorem maskFilter_map_fst {α β : Type} (p : β → Bool) :
    ∀ (x : List α) (y : List β),
      maskFilter x (y.map p) = ((x.zip y).filter fun q => p q.2).map Prod.fst
  | [], [] => rfl
  | [], _ :: _ => rfl
  | _ :: _, [] => rfl
  | a :: x, b :: y => by
    simp only [List.map_cons, maskFilter, List.zip_cons_cons, List.filter_cons]
    cases h : p b with
    | true => simp [maskFilter_map_fst p x y]
    | false => simp [maskFilter_map_fst p x y]

theorem maskFilter_self {α : Type} (p : α → Bool) :
    ∀ y : List α, maskFilter y (y.map p) = y.filter p
  | [] => rfl
  | a :: y => by
    simp only [List.map_cons, maskFilter, List.filter_cons]
    cases h : p a with
    | true => simp [maskFilter_self p y]
    | false => simp [maskFilter_self p y]

theorem zipFilter_map_snd {α β : Type} (p : β → Bool) :
    ∀ (x : List α) (y : List β), x.length = y.length →
      ((x.zip y).filter fun q => p q.2).map Prod.snd = y.filter p
  | [], [], _ => rfl
  | a :: x, b :: y, h => by
    simp only [List.zip_cons_cons, List.filter_cons]
    cases hp : p b with
    | true => simp [zipFilter_map_snd p x y (by simpa using h)]
    | false => simp [zipFilter_map_snd p x y (by simpa using h)]

theorem maskFilter_all_true {α : Type} :
    ∀ (l : List α) (m : List Bool), (∀ b ∈ m, b = true) → l.length = m.length →
      maskFilter l m = l
  | [], [], _, _ => rfl
  | a :: l, b :: m, hall, hlen => by
    have hb : b = true := hall b (by simp)
    subst hb
    simp only [maskFilter, if_pos rfl]
    exact congrArg (a :: ·) (maskFilter_all_true l m (fun c hc => hall c (by simp [hc])) (by simpa using hlen))

/-! ### Helper lemmas about the series minimum and maximum -/

theorem foldl_min_le_init (l : List ℚ) : ∀ a : ℚ, l.foldl min a ≤ a := by
  induction l with
  | nil => intro a; exact le_refl a
  | cons c l ih =>
    intro a
    calc (c :: l).foldl min a = l.foldl min (min a c) := rfl
    _ ≤ min a c := ih (min a c)
    _ ≤ a := min_le_left a c

theorem foldl_min_le_mem (l : List ℚ) : ∀ (a b : ℚ), b ∈ l → l.foldl min a ≤ b := by
  induction l with
  | nil => intro a b hb; cases hb
  | cons c l ih =>
    intro a b hb
    rcases List.mem_cons.mp hb with h | h
    · subst h
      calc l.foldl min (min a b) ≤ min a b := foldl_min_le_init l (min a b)
      _ ≤ b := min_le_right a b
    · exact ih (min a c) b h

theorem foldl_min_mem (l : List ℚ) : ∀ a : ℚ, l.foldl min a = a ∨ l.foldl min a ∈ l := by
  induction l with
  | nil => intro a; exact Or.inl rfl
  | cons c l ih =>
    intro a
    rcases ih (min a c) with h | h
    · rcases min_choice a c with hc | hc
      · exact Or.inl (by rw [show (c :: l).foldl min a = l.foldl min (min a c) from rfl, h, hc])
      · refine Or.inr (List.mem_cons.mpr (Or.inl ?_))
        rw [show (c :: l).foldl min a = l.foldl min (min a c) from rfl, h, hc]
    · exact Or.inr (List.mem_cons.mpr (Or.inr h))

theorem seriesMin_le {l : List ℚ} {b : ℚ} (hb : b ∈ l) : seriesMin l ≤ b := by
  cases l with
  | nil => cases hb
  | cons a l =>
    rcases List.mem_cons.mp hb with h | h
    · subst h; exact foldl_min_le_init l b
    · exact foldl_min_le_mem l a b h

theorem seriesMin_mem {l : List ℚ} (h : l ≠ []) : seriesMin l ∈ l := by
  cases l with
  | nil => exact absurd rfl h
  | cons a l =>
    rcases foldl_min_mem l a with h' | h'
    · exact List.mem_cons.mpr (Or.inl h')
    · exact List.mem_cons.mpr (Or.inr h')

theorem foldl_max_init_le (l : List ℚ) : ∀ a : ℚ, a ≤ l.foldl max a := by
  induction l with
  | nil => intro a; exact le_refl a
  | cons c l ih =>
    intro a
    calc a ≤ max a c := le_max_left a c
    _ ≤ l.foldl max (max a c) := ih (max a c)

theorem foldl_max_mem_le (l : List ℚ) : ∀ (a b : ℚ), b ∈ l → b ≤ l.foldl max a := by
  induction l with
  | nil => intro a b hb; cases hb
  | cons c l ih =>
    intro a b hb
    rcases List.mem_cons.mp hb with h | h
    · subst h
      calc b ≤ max a b := le_max_right a b
      _ ≤ l.foldl max (max a b) := foldl_max_init_le l (max a b)
    · exact ih (max a c) b h

theorem foldl_max_mem (l : List ℚ) : ∀ a : ℚ, l.foldl max a = a ∨ l.foldl max a ∈ l := by
  induction l with
  | nil => intro a; exact Or.inl rfl
  | cons c l ih =>
    intro a
    rcases ih (max a c) with h | h
    · rcases max_choice a c with hc | hc
      · exact Or.inl (by rw [show (c :: l).foldl max a = l.foldl max (max a c) from rfl, h, hc])
      · refine Or.inr (List.mem_cons.mpr (Or.inl ?_))
        rw [show (c :: l).foldl max a = l.foldl max (max a c) from rfl, h, hc]
    · exact Or.inr (List.mem_cons.mpr (Or.inr h))

theorem le_seriesMax {l : List ℚ} {b : ℚ} (hb : b ∈ l) : b ≤ seriesMax l := by
  cases l with
  | nil => cases hb
  | cons a l =>
    rcases List.mem_cons.mp hb with h | h
    · subst h; exact foldl_max_init_le l b
    · exact foldl_max_mem_le l a b h

theorem seriesMax_mem {l : List ℚ} (h : l ≠ []) : seriesMax l ∈ l := by
  cases l with
  | nil => exact absurd rfl h
  | cons a l =>
    rcases foldl_max_mem l a with h' | h'
    · exact List.mem_cons.mpr (Or.inl h')
    · exact List.mem_cons.mpr (Or.inr h')

theorem seriesMin_le_seriesMax {l : List ℚ} (h : l ≠ []) : seriesMin l ≤ seriesMax l :=
  seriesMin_le (seriesMax_mem h)

/-! ### Helper lemmas about `linspace` -/

theorem linspace_length (a b : ℚ) (n : ℕ) : (linspace a b n).length = n := by
  simp [linspace]

theorem start_mem_linspace (a b : ℚ) {n : ℕ} (hn : 1 ≤ n) : a ∈ linspace a b n := by
  unfold linspace
  refine List.mem_map.mpr ⟨0, List.mem_range.mpr hn, ?_⟩
  simp

theorem stop_mem_linspace (a b : ℚ) {n : ℕ} (hn : 2 ≤ n) : b ∈ linspace a b n := by
  unfold linspace
  refine List.mem_map.mpr ⟨n - 1, List.mem_range.mpr (by omega), ?_⟩
  have hne : ((n : ℚ) - 1) ≠ 0 := by
    have : (2 : ℚ) ≤ (n : ℚ) := by exact_mod_cast hn
    intro h
    nlinarith
  have hcast : ((n - 1 : ℕ) : ℚ) = (n : ℚ) - 1 := by
    have : 1 ≤ n := by omega
    push_cast [this]
    ring
  rw [hcast, mul_div_assoc, div_self hne]
  ring

theorem mem_linspace_bounds {a b q : ℚ} {n : ℕ} (hab : a ≤ b)
    (hq : q ∈ linspace a b n) : a ≤ q ∧ q ≤ b := by
  unfold linspace at hq
  rcases List.mem_map.mp hq with ⟨i, hi, rfl⟩
  have hin : i < n := List.mem_range.mp hi
  rcases Nat.lt_or_ge i 1 with h1 | h1
  · have : i = 0 := by omega
    subst this
    constructor
    · simp
    · simp [hab]
  · have hn2 : 2 ≤ n := by omega
    have hd : (0 : ℚ) < (n : ℚ) - 1 := by
      have : (2 : ℚ) ≤ (n : ℚ) := by exact_mod_cast hn2
      linarith
    have hi0 : (0 : ℚ) ≤ (i : ℚ) := by positivity
    have hile : (i : ℚ) ≤ (n : ℚ) - 1 := by
      have : (i : ℚ) + 1 ≤ (n : ℚ) := by exact_mod_cast hin
      linarith
    have hba : (0 : ℚ) ≤ b - a := by linarith
    constructor
    · have : (0 : ℚ) ≤ (b - a) * (i : ℚ) / ((n : ℚ) - 1) := by positivity
      linarith
    · have hnum : (b - a) * (i : ℚ) ≤ (b - a) * ((n : ℚ) - 1) :=
        mul_le_mul_of_nonneg_left hile hba
      have hdivle : (b - a) * (i : ℚ) / ((n : ℚ) - 1) ≤ b - a := by
        rw [div_le_iff₀ hd]
        linarith
      linarith

/-! ### Helper lemmas about the date format round trip -/

theorem daysInMonth_le_31 (y m : ℕ) : daysInMonth y m ≤ 31 := by
  unfold daysInMonth
  split_ifs <;> omega

theorem digitChar_isDigit {k : ℕ} (h : k < 10) : (Nat.digitChar k).isDigit = true := by
  interval_cases k <;> decide

theorem digitVal_digitChar {k : ℕ} (h : k < 10) : digitVal (Nat.digitChar k) = k := by
  interval_cases k <;> decide

theorem digitChar_ne_space {k : ℕ} (h : k < 10) : Nat.digitChar k ≠ ' ' := by
  interval_cases k <;> decide

theorem parseMonthIdx_format (m : ℕ) (h1 : 1 ≤ m) (h2 : m ≤ 12) (rest : List Char) :
    parseMonthIdx (monthChars m ++ rest) = some (m, rest) := by
  interval_cases m <;> rfl

theorem skipSpaces_of_head_ne {c : Char} (l : List Char) (h : c ≠ ' ') :
    skipSpaces (c :: l) = c :: l := by
  simp [skipSpaces, h]

theorem expectSpace1_cons_space (l : List Char) :
    expectSpace1 (' ' :: l) = some (skipSpaces l) := by
  simp [expectSpace1]

theorem skipSpaces_pad2 (n : ℕ) (hn : n < 100) (rest : List Char) :
    skipSpaces (pad2 n ++ rest) = pad2 n ++ rest := by
  simp only [pad2, List.cons_append]
  exact skipSpaces_of_head_ne _ (digitChar_ne_space (by omega))

theorem skipSpaces_pad4 (n : ℕ) (hn : n ≤ 9999) :
    skipSpaces (pad4 n) = pad4 n := by
  simp only [pad4]
  exact skipSpaces_of_head_ne _ (digitChar_ne_space (by omega))

theorem parseDay2_pad2 (n : ℕ) (hn : n < 100) (rest : List Char) :
    parseDay2 (pad2 n ++ rest) = some (n, rest) := by
  have h1 : n / 10 < 10 := by omega
  have h2 : n % 10 < 10 := by omega
  simp only [pad2, List.cons_append, parseDay2, digitChar_isDigit h1, digitChar_isDigit h2,
    digitVal_digitChar h1, digitVal_digitChar h2, if_true]
  have : 10 * (n / 10) + n % 10 = n := by omega
  simp [this]

theorem parseYear4_pad4 (y : ℕ) (hy : y ≤ 9999) :
    parseYear4 (pad4 y) = some (y, []) := by
  have h1 : y / 1000 < 10 := by omega
  have h2 : y / 100 % 10 < 10 := by omega
  have h3 : y / 10 % 10 < 10 := by omega
  have h4 : y % 10 < 10 := by omega
  simp only [pad4, parseYear4, digitChar_isDigit h1, digitChar_isDigit h2, digitChar_isDigit h3,
    digitChar_isDigit h4, digitVal_digitChar h1, digitVal_digitChar h2, digitVal_digitChar h3,
    digitVal_digitChar h4, Bool.and_self, if_true]
  have : ((y / 1000 * 10 + y / 100 % 10) * 10 + y / 10 % 10) * 10 + y % 10 = y := by omega
  simp [this]

theorem expectComma_cons (rest : List Char) : expectComma (',' :: rest) = some rest := rfl

theorem parse_format_roundtrip {d : Date} (h : validDate d) :
    parseDate (formatDate d) = some d := by
  obtain ⟨y, m, dy⟩ := d
  have hm1 : 1 ≤ m := h.1
  have hm2 : m ≤ 12 := h.2.1
  have hd1 : 1 ≤ dy := h.2.2.1
  have hdm : dy ≤ daysInMonth y m := h.2.2.2.1
  have hb : inBounds ⟨y, m, dy⟩ := h.2.2.2.2
  have hdy31 : dy ≤ 31 := le_trans hdm (daysInMonth_le_31 y m)
  have hy : 1677 ≤ y ∧ y ≤ 2262 := by
    have h1 := hb.1
    have h2 := hb.2
    simp only [serial] at h1 h2
    omega
  show parseDateChars ((monthChars m ++ (' ' :: pad2 dy)) ++ (',' :: ' ' :: pad4 y)) = some ⟨y, m, dy⟩
  rw [List.append_assoc]
  simp only [List.cons_append]
  rw [parseDateChars, parseMonthIdx_format m hm1 hm2, Option.some_bind]
  rw [expectSpace1_cons_space, Option.some_bind, skipSpaces_pad2 dy (by omega),
    parseDay2_pad2 dy (by omega) _, Option.some_bind, expectComma_cons, Option.some_bind,
    expectSpace1_cons_space, Option.some_bind, skipSpaces_pad4 y (by omega),
    parseYear4_pad4 y (by omega), Option.some_bind]
  exact if_pos ⟨rfl, hd1, hdm, hb⟩

/-! ### Branch characterisations of `smooth_line` -/

theorem smooth_line_eq_smoothed (spline : List ℚ → List (Option ℚ) → ℚ → Option ℚ)
    (x : List ℚ) (y : List (Option ℚ)) (points : ℕ)
    (h3 : 3 ≤ (maskFilter x (y.map Option.isSome)).length) :
    smooth_line spline x y points =
      ((linspace (seriesMin (maskFilter x (y.map Option.isSome)))
          (seriesMax (maskFilter x (y.map Option.isSome))) points).map XVal.datetime,
       (linspace (seriesMin (maskFilter x (y.map Option.isSome)))
          (seriesMax (maskFilter x (y.map Option.isSome))) points).map
          (spline (maskFilter x (y.map Option.isSome)) (maskFilter y (y.map Option.isSome)))) := by
  simp only [smooth_line]
  rw [if_pos h3]

theorem smooth_line_eq_fallback (spline : List ℚ → List (Option ℚ) → ℚ → Option ℚ)
    (x : List ℚ) (y : List (Option ℚ)) (points : ℕ)
    (h3 : ¬ 3 ≤ (maskFilter x (y.map Option.isSome)).length) :
    smooth_line spline x y points =
      ((maskFilter x (y.map Option.isSome)).map XVal.numeric,
       maskFilter y (y.map Option.isSome)) := by
  simp only [smooth_line]
  rw [if_neg h3]

/-- Concrete raw row with the given date string, performance and sentiment
cells; the opaque display columns are missing values. -/
def mkRaw (dateStr : String) (perf : Option ℚ) (sent : Cell) : RawRow :=
  { title := Cell.na, release_date := dateStr, production_budget := Cell.na,
    box_office := Cell.na, profit := Cell.na, roi_percentage := Cell.na,
    performance := perf, poster_url := Cell.na, backdrop_url := Cell.na,
    runtime := Cell.na, tagline := Cell.na, trailer := Cell.na,
    sentiment_score := sent, comment := Cell.na }

/-! ### Claim theorems -/

/-- Claim C2: when fewer than 3 pairs have a non-null y, `smooth_line`
returns the null-filtered input unchanged — the same pairs in the same
order, with exactly the null-y pairs excluded (the filtered sequence is a
sublist of the input pairs and contains no null y). -/
theorem smooth_line_fallback_returns_filtered
    (spline : List ℚ → List (Option ℚ) → ℚ → Option ℚ)
    (x : List ℚ) (y : List (Option ℚ)) (points : ℕ)
    (hlen : x.length = y.length)
    (h : ((x.zip y).filter fun p => p.2.isSome).length < 3) :
    (smooth_line spline x y points).1
        = ((x.zip y).filter fun p => p.2.isSome).map (fun p => XVal.numeric p.1) ∧
    (smooth_line spline x y points).2
        = ((x.zip y).filter fun p => p.2.isSome).map Prod.snd ∧
    ((x.zip y).filter fun p => p.2.isSome).Sublist (x.zip y) ∧
    ∀ p ∈ (x.zip y).filter fun p => p.2.isSome, p.2 ≠ none := by
  have hxv : maskFilter x (y.map Option.isSome)
      = ((x.zip y).filter fun p => p.2.isSome).map Prod.fst :=
    maskFilter_map_fst Option.isSome x y
  have hlt : ¬ 3 ≤ (maskFilter x (y.map Option.isSome)).length := by
    rw [hxv, List.length_map]
    omega
  rw [smooth_line_eq_fallback spline x y points hlt]
  refine ⟨?_, ?_, List.filter_sublist _, ?_⟩
  · rw [hxv, List.map_map]
    rfl
  · rw [maskFilter_self Option.isSome y, ← zipFilter_map_snd Option.isSome x y hlen]
  · intro p hp
    have := (List.mem_filter.mp hp).2
    exact Option.ne_none_iff_isSome.mpr (by exact_mod_cast this)

/-- Witness for C2 at a concrete input: two pairs, one with a null y. -/
theorem smooth_line_fallback_returns_filtered_witness :
    (([(0 : ℚ), 1] : List ℚ).length = ([some (5 : ℚ), none] : List (Option ℚ)).length) ∧
    ((([(0 : ℚ), 1].zip [some (5 : ℚ), none]).filter fun p => p.2.isSome).length < 3) ∧
    ((smooth_line (fun _ _ _ => none) [0, 1] [some 5, none] 300).1
        = (([(0 : ℚ), 1].zip [some (5 : ℚ), none]).filter fun p => p.2.isSome).map
            (fun p => XVal.numeric p.1) ∧
     (smooth_line (fun _ _ _ => none) [0, 1] [some 5, none] 300).2
        = (([(0 : ℚ), 1].zip [some (5 : ℚ), none]).filter fun p => p.2.isSome).map Prod.snd ∧
     (([(0 : ℚ), 1].zip [some (5 : ℚ), none]).filter fun p => p.2.isSome).Sublist
        ([(0 : ℚ), 1].zip [some (5 : ℚ), none]) ∧
     ∀ p ∈ ([(0 : ℚ), 1].zip [some (5 : ℚ), none]).filter fun p => p.2.isSome, p.2 ≠ none) :=
  ⟨by decide, by decide,
   smooth_line_fallback_returns_filtered (fun _ _ _ => none) [0, 1] [some 5, none] 300
     (by decide) (by decide)⟩

/-- Claim C1 (amended): with at least 3 valid pairs and a requested count
of at least 2, the returned x-sequence has exactly `points` elements, all
datetime-converted, lying between the minimum and maximum of the valid x
values, with both extremes attained. -/
theorem smooth_line_span_and_count (spline : List ℚ → List (Option ℚ) → ℚ → Option ℚ)
    (x : List ℚ) (y : List (Option ℚ)) (points : ℕ)
    (hp : 2 ≤ points)
    (h3 : 3 ≤ (maskFilter x (y.map Option.isSome)).length) :
    (smooth_line spline x y points).1.length = points ∧
    XVal.datetime (seriesMin (maskFilter x (y.map Option.isSome)))
        ∈ (smooth_line spline x y points).1 ∧
    XVal.datetime (seriesMax (maskFilter x (y.map Option.isSome)))
        ∈ (smooth_line spline x y points).1 ∧
    ∀ v ∈ (smooth_line spline x y points).1, ∃ q : ℚ,
      v = XVal.datetime q ∧
      seriesMin (maskFilter x (y.map Option.isSome)) ≤ q ∧
      q ≤ seriesMax (maskFilter x (y.map Option.isSome)) := by
  have hne : maskFilter x (y.map Option.isSome) ≠ [] := by
    intro hnil
    rw [hnil] at h3
    simp at h3
  have hab : seriesMin (maskFilter x (y.map Option.isSome))
      ≤ seriesMax (maskFilter x (y.map Option.isSome)) := seriesMin_le_seriesMax hne
  rw [smooth_line_eq_smoothed spline x y points h3]
  refine ⟨?_, ?_, ?_, ?_⟩
  · rw [List.length_map, linspace_length]
  · exact List.mem_map_of_mem _ (start_mem_linspace _ _ (by omega))
  · exact List.mem_map_of_mem _ (stop_mem_linspace _ _ hp)
  · intro v hv
    rcases List.mem_map.mp hv with ⟨q, hq, rfl⟩
    exact ⟨q, rfl, (mem_linspace_bounds hab hq).1, (mem_linspace_bounds hab hq).2⟩

/-- Witness for the amended C1 at a concrete input with the default
requested count of 300. -/
theorem smooth_line_span_and_count_witness :
    (2 ≤ 300) ∧
    (3 ≤ (maskFilter [(0 : ℚ), 1, 2] ([some (0 : ℚ), some 1, some 2].map Option.isSome)).length) ∧
    ((smooth_line (fun _ _ _ => none) [0, 1, 2] [some 0, some 1, some 2] 300).1.length = 300 ∧
     XVal.datetime (seriesMin (maskFilter [(0 : ℚ), 1, 2]
          ([some (0 : ℚ), some 1, some 2].map Option.isSome)))
        ∈ (smooth_line (fun _ _ _ => none) [0, 1, 2] [some 0, some 1, some 2] 300).1 ∧
     XVal.datetime (seriesMax (maskFilter [(0 : ℚ), 1, 2]
          ([some (0 : ℚ), some 1, some 2].map Option.isSome)))
        ∈ (smooth_line (fun _ _ _ => none) [0, 1, 2] [some 0, some 1, some 2] 300).1 ∧
     ∀ v ∈ (smooth_line (fun _ _ _ => none) [0, 1, 2] [some 0, some 1, some 2] 300).1, ∃ q : ℚ,
       v = XVal.datetime q ∧
       seriesMin (maskFilter [(0 : ℚ), 1, 2]
          ([some (0 : ℚ), some 1, some 2].map Option.isSome)) ≤ q ∧
       q ≤ seriesMax (maskFilter [(0 : ℚ), 1, 2]
          ([some (0 : ℚ), some 1, some 2].map Option.isSome))) :=
  ⟨by decide, by decide,
   smooth_line_span_and_count (fun _ _ _ => none) [0, 1, 2] [some 0, some 1, some 2] 300
     (by decide) (by decide)⟩

/-- Counterexample to C1 as stated: at the concrete input
`x = [0, 1, 2]`, `y = [0, 1, 2]` (all valid, so the smoothing branch is
taken) with requested count `points = 1`, the output has the requested
length 1 but does not attain the maximum valid x (which is 2), so its
x-values do not span `[min x, max x]`. -/
theorem smooth_line_single_point_breaks_span :
    (smooth_line (fun _ _ _ => none) [0, 1, 2] [some 0, some 1, some 2] 1).1.length = 1 ∧
    seriesMax (maskFilter [(0 : ℚ), 1, 2] ([some (0 : ℚ), some 1, some 2].map Option.isSome)) = 2 ∧
    XVal.datetime 2 ∉ (smooth_line (fun _ _ _ => none) [0, 1, 2] [some 0, some 1, some 2] 1).1 := by
  have h3 : 3 ≤ (maskFilter [(0 : ℚ), 1, 2]
      ([some (0 : ℚ), some 1, some 2].map Option.isSome)).length := by decide
  have hmin : seriesMin (maskFilter [(0 : ℚ), 1, 2]
      ([some (0 : ℚ), some 1, some 2].map Option.isSome)) = 0 := by decide
  have hmax : seriesMax (maskFilter [(0 : ℚ), 1, 2]
      ([some (0 : ℚ), some 1, some 2].map Option.isSome)) = 2 := by decide
  refine ⟨?_, hmax, ?_⟩
  · rw [smooth_line_eq_smoothed _ _ _ _ h3, List.length_map, linspace_length]
  · rw [smooth_line_eq_smoothed _ _ _ _ h3, hmin, hmax]
    intro hmem
    rcases List.mem_map.mp hmem with ⟨q, hq, hdq⟩
    have hq2 : q = 2 := (XVal.datetime.injEq _ _).mp hdq
    rw [hq2] at hq
    unfold linspace at hq
    rcases List.mem_map.mp hq with ⟨i, hi, hval⟩
    have hi0 : i = 0 := by
      have := List.mem_range.mp hi
      omega
    rw [hi0] at hval
    norm_num at hval

/-- Claim C10: with at least 3 valid pairs every returned x-value is a
datetime-converted value, while in the fewer-than-3 fallback every
returned x-value keeps the caller's numeric representation. -/
theorem smooth_line_branch_types (spline : List ℚ → List (Option ℚ) → ℚ → Option ℚ)
    (x : List ℚ) (y : List (Option ℚ)) (points : ℕ) (v : XVal) :
    (3 ≤ (maskFilter x (y.map Option.isSome)).length →
      v ∈ (smooth_line spline x y points).1 → ∃ q : ℚ, v = XVal.datetime q) ∧
    ((maskFilter x (y.map Option.isSome)).length < 3 →
      v ∈ (smooth_line spline x y points).1 → ∃ q : ℚ, v = XVal.numeric q) := by
  constructor
  · intro h3 hv
    rw [smooth_line_eq_smoothed spline x y points h3] at hv
    rcases List.mem_map.mp hv with ⟨q, _, rfl⟩
    exact ⟨q, rfl⟩
  · intro hlt hv
    rw [smooth_line_eq_fallback spline x y points (by omega)] at hv
    rcases List.mem_map.mp hv with ⟨q, _, rfl⟩
    exact ⟨q, rfl⟩

/-- Witness for C10: both branches evaluated at concrete inputs, showing a
datetime output in the smoothed case and a numeric output in the fallback
case for the same function. -/
theorem smooth_line_branch_types_witness :
    ((3 ≤ (maskFilter [(0 : ℚ), 1, 2] ([some (0 : ℚ), some 1, some 2].map Option.isSome)).length) ∧
     XVal.datetime (seriesMin (maskFilter [(0 : ℚ), 1, 2]
        ([some (0 : ℚ), some 1, some 2].map Option.isSome)))
        ∈ (smooth_line (fun _ _ _ => none) [(0 : ℚ), 1, 2] [some 0, some 1, some 2] 300).1 ∧
     (∃ q : ℚ, XVal.datetime (seriesMin (maskFilter [(0 : ℚ), 1, 2]
        ([some (0 : ℚ), some 1, some 2].map Option.isSome))) = XVal.datetime q)) ∧
    (((maskFilter [(5 : ℚ)] ([some (1 : ℚ)].map Option.isSome)).length < 3) ∧
     XVal.numeric 5 ∈ (smooth_line (fun _ _ _ => none) [(5 : ℚ)] [some 1] 300).1 ∧
     (∃ q : ℚ, XVal.numeric (5 : ℚ) = XVal.numeric q)) := by
  have hmem : XVal.datetime (seriesMin (maskFilter [(0 : ℚ), 1, 2]
      ([some (0 : ℚ), some 1, some 2].map Option.isSome)))
      ∈ (smooth_line (fun _ _ _ => none) [(0 : ℚ), 1, 2] [some 0, some 1, some 2] 300).1 := by
    rw [smooth_line_eq_smoothed (fun _ _ _ => none) [(0 : ℚ), 1, 2]
      [some 0, some 1, some 2] 300 (by decide)]
    exact List.mem_map_of_mem _ (start_mem_linspace _ _ (by norm_num))
  exact ⟨⟨by decide, hmem,
    (smooth_line_branch_types (fun _ _ _ => none) [(0 : ℚ), 1, 2] [some 0, some 1, some 2] 300
      (XVal.datetime (seriesMin (maskFilter [(0 : ℚ), 1, 2]
        ([some (0 : ℚ), some 1, some 2].map Option.isSome))))).1 (by decide) hmem⟩,
   ⟨by decide, by decide,
    (smooth_line_branch_types (fun _ _ _ => none) [(5 : ℚ)] [some 1] 300
      (XVal.numeric 5)).2 (by decide) (by decide)⟩⟩

/-- Claim C8: `smooth_line` filters only on nullness of y; a pair whose x
is the `NaT` numeric sentinel but whose y is non-null is retained among
the valid pairs, bounds the min/max of the valid x values, and (with at
least 3 valid pairs) those min/max define the resampling grid. -/
theorem smooth_line_keeps_nat_sentinel (spline : List ℚ → List (Option ℚ) → ℚ → Option ℚ)
    (x : List ℚ) (y : List (Option ℚ)) (points : ℕ) (i : ℕ) (v : ℚ)
    (hx : x.get? i = some NaTNum) (hy : y.get? i = some (some v)) :
    (NaTNum, some v) ∈ (x.zip y).filter (fun p => p.2.isSome) ∧
    NaTNum ∈ maskFilter x (y.map Option.isSome) ∧
    seriesMin (maskFilter x (y.map Option.isSome)) ≤ NaTNum ∧
    NaTNum ≤ seriesMax (maskFilter x (y.map Option.isSome)) ∧
    (3 ≤ (maskFilter x (y.map Option.isSome)).length →
      (smooth_line spline x y points).1 =
        (linspace (seriesMin (maskFilter x (y.map Option.isSome)))
          (seriesMax (maskFilter x (y.map Option.isSome))) points).map XVal.datetime) := by
  have hzip : (x.zip y).get? i = some (NaTNum, some v) :=
    (List.get?_zip_eq_some x y (NaTNum, some v) i).mpr ⟨hx, hy⟩
  have hmem : (NaTNum, some v) ∈ x.zip y := List.get?_mem hzip
  have h1 : (NaTNum, some v) ∈ (x.zip y).filter (fun p => p.2.isSome) :=
    List.mem_filter.mpr ⟨hmem, rfl⟩
  have h2 : NaTNum ∈ maskFilter x (y.map Option.isSome) := by
    rw [maskFilter_map_fst Option.isSome x y]
    exact List.mem_map.mpr ⟨(NaTNum, some v), h1, rfl⟩
  refine ⟨h1, h2, seriesMin_le h2, le_seriesMax h2, fun h3 => ?_⟩
  rw [smooth_line_eq_smoothed spline x y points h3]

/-- Witness for C8: the sentinel-x pair at index 0 of a concrete input. -/
theorem smooth_line_keeps_nat_sentinel_witness :
    (([NaTNum, 1, 2] : List ℚ).get? 0 = some NaTNum) ∧
    (([some (7 : ℚ), some 1, some 2] : List (Option ℚ)).get? 0 = some (some 7)) ∧
    ((NaTNum, some (7 : ℚ)) ∈ (([NaTNum, 1, 2] : List ℚ).zip
        [some (7 : ℚ), some 1, some 2]).filter (fun p => p.2.isSome) ∧
     NaTNum ∈ maskFilter [NaTNum, 1, 2] ([some (7 : ℚ), some 1, some 2].map Option.isSome) ∧
     seriesMin (maskFilter [NaTNum, 1, 2]
        ([some (7 : ℚ), some 1, some 2].map Option.isSome)) ≤ NaTNum ∧
     NaTNum ≤ seriesMax (maskFilter [NaTNum, 1, 2]
        ([some (7 : ℚ), some 1, some 2].map Option.isSome)) ∧
     (3 ≤ (maskFilter [NaTNum, 1, 2]
          ([some (7 : ℚ), some 1, some 2].map Option.isSome)).length →
       (smooth_line (fun _ _ _ => none) [NaTNum, 1, 2] [some 7, some 1, some 2] 300).1 =
         (linspace (seriesMin (maskFilter [NaTNum, 1, 2]
             ([some (7 : ℚ), some 1, some 2].map Option.isSome)))
           (seriesMax (maskFilter [NaTNum, 1, 2]
             ([some (7 : ℚ), some 1, some 2].map Option.isSome))) 300).map XVal.datetime)) :=
  ⟨by decide, by decide,
   smooth_line_keeps_nat_sentinel (fun _ _ _ => none) [NaTNum, 1, 2] [some 7, some 1, some 2]
     300 0 7 (by decide) (by decide)⟩

/-- Claim C9: after the loader's sort, rows whose release date failed to
parse are retained and placed after every row with a parsed date, the
table is a permutation of the per-row-loaded input, and the raw
performance marker trace consumes exactly this ordering. -/
theorem loader_nulls_last (rows : List RawRow) :
    List.Pairwise (fun a b : Row => a.release_date = none → b.release_date = none)
      (update_graph_table rows) ∧
    (update_graph_table rows).Perm (rows.map loadRow) ∧
    ∀ spline : List ℚ → List (Option ℚ) → ℚ → Option ℚ, ∃ t : Trace,
      (update_graph spline rows).get? 1 = some t ∧
      t.x = (update_graph_table rows).map (fun r => AxisVal.dt r.release_date) := by
  refine ⟨?_, List.perm_insertionSort rowLE (rows.map loadRow), fun spline => ⟨_, rfl, rfl⟩⟩
  have hs : List.Pairwise rowLE (update_graph_table rows) :=
    List.sorted_insertionSort rowLE (rows.map loadRow)
  refine hs.imp ?_
  intro a b hab hna
  cases hrb : b.release_date with
  | none => rfl
  | some d =>
    exfalso
    have hle : dateKey a.release_date ≤ dateKey b.release_date := hab
    rw [hna, hrb] at hle
    have htop : dateKey (some d) = ⊤ := le_antisymm le_top hle
    simp [dateKey] at htop

/-- Claim C3 (amended): rows whose release date fails to parse are not
dropped — the loaded table is a permutation of the rowwise-loaded input,
with failed rows carrying the null date sentinel — and the table is
totally ordered by the sort key under which parsed dates compare by their
timestamps ascending and nulls come last. -/
theorem loader_sorts_and_retains (rows : List RawRow) :
    (update_graph_table rows).Perm (rows.map loadRow) ∧
    List.Pairwise rowLE (update_graph_table rows) ∧
    List.Pairwise (fun a b : Row => ∀ da, a.release_date = some da →
      ∀ db, b.release_date = some db → toEpochNs da ≤ toEpochNs db)
      (update_graph_table rows) := by
  refine ⟨List.perm_insertionSort rowLE (rows.map loadRow),
    List.sorted_insertionSort rowLE (rows.map loadRow), ?_⟩
  refine (List.sorted_insertionSort rowLE (rows.map loadRow)).imp ?_
  intro a b hab da hda db hdb
  have hle : dateKey a.release_date ≤ dateKey b.release_date := hab
  rw [hda, hdb] at hle
  simp only [dateKey] at hle
  exact_mod_cast hle

/-- Counterexample to C3 as stated: a concrete two-row input whose second
row has the unparseable date "garbage"; the loaded table still has two
rows, the unparseable one retained (with a null date) after the valid
one — it is not dropped. -/
theorem loader_retains_unparseable_row :
    (update_graph_table
        [mkRaw "Jun 01, 2001" (some 1) (Cell.num 2),
         mkRaw "garbage" (some 3) (Cell.num 4)]).map (fun r => r.release_date)
      = [some ⟨2001, 6, 1⟩, none] := by
  decide

/-- Claim C5: for a row whose release date is a well-formed "Mon DD, YYYY"
string (the canonical rendering of a valid in-range date), the loaded
row appears in the table and its derived formatted-date column equals the
original string. -/
theorem formatted_date_roundtrip (rows : List RawRow) (rr : RawRow) (hmem : rr ∈ rows)
    (h : ∃ d : Date, validDate d ∧ formatDate d = rr.release_date) :
    loadRow rr ∈ update_graph_table rows ∧
    (loadRow rr).formatted_release_date = Cell.str rr.release_date := by
  obtain ⟨d, hd, hfmt⟩ := h
  constructor
  · exact (List.perm_insertionSort rowLE (rows.map loadRow)).mem_iff.mpr
      (List.mem_map_of_mem loadRow hmem)
  · simp only [loadRow]
    rw [← hfmt, parse_format_roundtrip hd]

/-- Witness for C5 at the concrete date string "Jan 05, 2020". -/
theorem formatted_date_roundtrip_witness :
    (mkRaw "Jan 05, 2020" none Cell.na ∈ [mkRaw "Jan 05, 2020" none Cell.na]) ∧
    (∃ d : Date, validDate d ∧ formatDate d = (mkRaw "Jan 05, 2020" none Cell.na).release_date) ∧
    (loadRow (mkRaw "Jan 05, 2020" none Cell.na)
        ∈ update_graph_table [mkRaw "Jan 05, 2020" none Cell.na] ∧
     (loadRow (mkRaw "Jan 05, 2020" none Cell.na)).formatted_release_date
        = Cell.str (mkRaw "Jan 05, 2020" none Cell.na).release_date) :=
  ⟨List.mem_singleton.mpr rfl, ⟨⟨2020, 1, 5⟩, by decide, by decide⟩,
   formatted_date_roundtrip [mkRaw "Jan 05, 2020" none Cell.na] (mkRaw "Jan 05, 2020" none Cell.na)
     (List.mem_singleton.mpr rfl) ⟨⟨2020, 1, 5⟩, by decide, by decide⟩⟩

/-- Claim C6: the chart builder attaches the table's rows as customdata in
the fixed fourteen-column order, point `i` of the raw performance trace
carries row `i`'s tuple, and the detail panel renderer's positional
extraction returns exactly that row's stored title (position 0),
performance value (position 6) and sentiment value (position 12). -/
theorem hover_panel_matches_row (spline : List ℚ → List (Option ℚ) → ℚ → Option ℚ)
    (rows : List RawRow) (i : ℕ) (r : Row)
    (hr : (update_graph_table rows).get? i = some r) :
    (∃ t : Trace, (update_graph spline rows).get? 1 = some t ∧
      t.customdata = some ((update_graph_table rows).map customRow)) ∧
    ((update_graph_table rows).map customRow).get? i = some (customRow r) ∧
    customRow r = [r.title, r.formatted_release_date, r.production_budget, r.box_office,
      r.profit, r.roi_percentage, cellOfOpt r.performance, r.poster_url, r.backdrop_url,
      r.runtime, r.tagline, r.trailer, cellOfOpt r.sentiment_score, r.comment] ∧
    (display_hover_data (some (customRow r))).title = r.title ∧
    (display_hover_data (some (customRow r))).performanceValue = cellOfOpt r.performance ∧
    (display_hover_data (some (customRow r))).sentimentValue = cellOfOpt r.sentiment_score ∧
    (display_hover_data (some (customRow r))).title = (customRow r).getD 0 Cell.na ∧
    (display_hover_data (some (customRow r))).performanceValue = (customRow r).getD 6 Cell.na ∧
    (display_hover_data (some (customRow r))).sentimentValue = (customRow r).getD 12 Cell.na := by
  refine ⟨⟨_, rfl, rfl⟩, ?_, rfl, rfl, rfl, rfl, rfl, rfl, rfl⟩
  rw [List.get?_map, hr]
  rfl

/-- Witness for C6 at a concrete one-row table, hovering point 0. -/
theorem hover_panel_matches_row_witness :
    ((update_graph_table [mkRaw "Jan 05, 2020" (some 1) (Cell.num 2)]).get? 0
        = some (loadRow (mkRaw "Jan 05, 2020" (some 1) (Cell.num 2)))) ∧
    ((display_hover_data (some (customRow (loadRow (mkRaw "Jan 05, 2020" (some 1)
        (Cell.num 2)))))).title = (loadRow (mkRaw "Jan 05, 2020" (some 1) (Cell.num 2))).title ∧
     (display_hover_data (some (customRow (loadRow (mkRaw "Jan 05, 2020" (some 1)
        (Cell.num 2)))))).performanceValue
        = cellOfOpt (loadRow (mkRaw "Jan 05, 2020" (some 1) (Cell.num 2))).performance ∧
     (display_hover_data (some (customRow (loadRow (mkRaw "Jan 05, 2020" (some 1)
        (Cell.num 2)))))).sentimentValue
        = cellOfOpt (loadRow (mkRaw "Jan 05, 2020" (some 1) (Cell.num 2))).sentiment_score) := by
  have happ := hover_panel_matches_row (fun _ _ _ => none)
    [mkRaw "Jan 05, 2020" (some 1) (Cell.num 2)] 0
    (loadRow (mkRaw "Jan 05, 2020" (some 1) (Cell.num 2))) (by decide)
  exact ⟨by decide, happ.2.2.2.1, happ.2.2.2.2.1, happ.2.2.2.2.2.1⟩

/-- Length of both `smooth_line` outputs when every y is non-null and the
series is long enough to smooth. -/
theorem smooth_line_full_length (spline : List ℚ → List (Option ℚ) → ℚ → Option ℚ)
    (x : List ℚ) (y : List (Option ℚ)) (points : ℕ)
    (hlen : x.length = y.length)
    (hall : ∀ v ∈ y, Option.isSome v = true) (h3 : 3 ≤ x.length) :
    (smooth_line spline x y points).1.length = points ∧
    (smooth_line spline x y points).2.length = points := by
  have hm : maskFilter x (y.map Option.isSome) = x := by
    refine maskFilter_all_true x (y.map Option.isSome) ?_ ?_
    · intro b hb
      rcases List.mem_map.mp hb with ⟨v, hv, rfl⟩
      exact hall v hv
    · rw [List.length_map, hlen]
  have h3' : 3 ≤ (maskFilter x (y.map Option.isSome)).length := by
    rw [hm]
    exact h3
  rw [smooth_line_eq_smoothed spline x y points h3']
  exact ⟨by rw [List.length_map, linspace_length], by rw [List.length_map, linspace_length]⟩

/-- Claim C7: for a five-row input whose dates all parse and whose
performance and sentiment scores are all valid, the figure has exactly 4
traces; the smoothed traces carry exactly 300 points and the raw marker
traces exactly 5 points, in both x and y. -/
theorem five_rows_figure_shape (spline : List ℚ → List (Option ℚ) → ℚ → Option ℚ)
    (rows : List RawRow)
    (h5 : rows.length = 5)
    (hdate : ∀ r ∈ rows, (parseDate r.release_date).isSome = true)
    (hperf : ∀ r ∈ rows, r.performance.isSome = true)
    (hsent : ∀ r ∈ rows, (to_numeric r.sentiment_score).isSome = true) :
    (update_graph spline rows).length = 4 ∧
    (update_graph spline rows).map (fun t => t.x.length) = [300, 5, 300, 5] ∧
    (update_graph spline rows).map (fun t => t.y.length) = [300, 5, 300, 5] := by
  have hdf_len : (update_graph_table rows).length = 5 := by
    rw [update_graph_table, List.length_insertionSort, List.length_map, h5]
  have hdf_mem : ∀ r' ∈ update_graph_table rows, ∃ r ∈ rows, r' = loadRow r := by
    intro r' hr'
    have hmem : r' ∈ rows.map loadRow :=
      (List.perm_insertionSort rowLE (rows.map loadRow)).mem_iff.mp hr'
    rcases List.mem_map.mp hmem with ⟨r, hr, rfl⟩
    exact ⟨r, hr, rfl⟩
  have hx_len : ((update_graph_table rows).map (fun r => toNumericDate r.release_date)).length = 5 := by
    rw [List.length_map, hdf_len]
  have hperf_all : ∀ v ∈ (update_graph_table rows).map (fun r => r.performance),
      Option.isSome v = true := by
    intro v hv
    rcases List.mem_map.mp hv with ⟨r', hr', rfl⟩
    rcases hdf_mem r' hr' with ⟨r, hr, rfl⟩
    exact hperf r hr
  have hsent_all : ∀ v ∈ (update_graph_table rows).map (fun r => r.sentiment_score),
      Option.isSome v = true := by
    intro v hv
    rcases List.mem_map.mp hv with ⟨r', hr', rfl⟩
    rcases hdf_mem r' hr' with ⟨r, hr, rfl⟩
    exact hsent r hr
  obtain ⟨hp1, hp2⟩ := smooth_line_full_length spline
    ((update_graph_table rows).map (fun r => toNumericDate r.release_date))
    ((update_graph_table rows).map (fun r => r.performance)) 300
    (by rw [List.length_map, List.length_map]) hperf_all (by rw [hx_len]; omega)
  obtain ⟨hs1, hs2⟩ := smooth_line_full_length spline
    ((update_graph_table rows).map (fun r => toNumericDate r.release_date))
    ((update_graph_table rows).map (fun r => r.sentiment_score)) 300
    (by rw [List.length_map, List.length_map]) hsent_all (by rw [hx_len]; omega)
  refine ⟨rfl, ?_, ?_⟩
  · simp only [update_graph, List.map_cons, List.map_nil, List.length_map]
    rw [hp1, hs1, hdf_len]
  · simp only [update_graph, List.map_cons, List.map_nil, List.length_map]
    rw [hp2, hs2, hdf_len]

/-- Witness for C7 at a concrete five-row input. -/
theorem five_rows_figure_shape_witness :
    ([mkRaw "Jan 01, 2020" (some 1) (Cell.num 1), mkRaw "Jan 02, 2020" (some 2) (Cell.num 2),
      mkRaw "Jan 03, 2020" (some 3) (Cell.num 3), mkRaw "Jan 04, 2020" (some 4) (Cell.num 4),
      mkRaw "Jan 05, 2020" (some 5) (Cell.num 5)].length = 5) ∧
    (∀ r ∈ [mkRaw "Jan 01, 2020" (some 1) (Cell.num 1), mkRaw "Jan 02, 2020" (some 2) (Cell.num 2),
      mkRaw "Jan 03, 2020" (some 3) (Cell.num 3), mkRaw "Jan 04, 2020" (some 4) (Cell.num 4),
      mkRaw "Jan 05, 2020" (some 5) (Cell.num 5)], (parseDate r.release_date).isSome = true) ∧
    (∀ r ∈ [mkRaw "Jan 01, 2020" (some 1) (Cell.num 1), mkRaw "Jan 02, 2020" (some 2) (Cell.num 2),
      mkRaw "Jan 03, 2020" (some 3) (Cell.num 3), mkRaw "Jan 04, 2020" (some 4) (Cell.num 4),
      mkRaw "Jan 05, 2020" (some 5) (Cell.num 5)], r.performance.isSome = true) ∧
    (∀ r ∈ [mkRaw "Jan 01, 2020" (some 1) (Cell.num 1), mkRaw "Jan 02, 2020" (some 2) (Cell.num 2),
      mkRaw "Jan 03, 2020" (some 3) (Cell.num 3), mkRaw "Jan 04, 2020" (some 4) (Cell.num 4),
      mkRaw "Jan 05, 2020" (some 5) (Cell.num 5)], (to_numeric r.sentiment_score).isSome = true) ∧
    ((update_graph (fun _ _ _ => none)
        [mkRaw "Jan 01, 2020" (some 1) (Cell.num 1), mkRaw "Jan 02, 2020" (some 2) (Cell.num 2),
         mkRaw "Jan 03, 2020" (some 3) (Cell.num 3), mkRaw "Jan 04, 2020" (some 4) (Cell.num 4),
         mkRaw "Jan 05, 2020" (some 5) (Cell.num 5)]).length = 4 ∧
     (update_graph (fun _ _ _ => none)
        [mkRaw "Jan 01, 2020" (some 1) (Cell.num 1), mkRaw "Jan 02, 2020" (some 2) (Cell.num 2),
         mkRaw "Jan 03, 2020" (some 3) (Cell.num 3), mkRaw "Jan 04, 2020" (some 4) (Cell.num 4),
         mkRaw "Jan 05, 2020" (some 5) (Cell.num 5)]).map (fun t => t.x.length)
        = [300, 5, 300, 5] ∧
     (update_graph (fun _ _ _ => none)
        [mkRaw "Jan 01, 2020" (some 1) (Cell.num 1), mkRaw "Jan 02, 2020" (some 2) (Cell.num 2),
         mkRaw "Jan 03, 2020" (some 3) (Cell.num 3), mkRaw "Jan 04, 2020" (some 4) (Cell.num 4),
         mkRaw "Jan 05, 2020" (some 5) (Cell.num 5)]).map (fun t => t.y.length)
        = [300, 5, 300, 5]) :=
  ⟨rfl, by decide, by decide, by decide,
   five_rows_figure_shape (fun _ _ _ => none)
     [mkRaw "Jan 01, 2020" (some 1) (Cell.num 1), mkRaw "Jan 02, 2020" (some 2) (Cell.num 2),
      mkRaw "Jan 03, 2020" (some 3) (Cell.num 3), mkRaw "Jan 04, 2020" (some 4) (Cell.num 4),
      mkRaw "Jan 05, 2020" (some 5) (Cell.num 5)] rfl (by decide) (by decide) (by decide)⟩

/-- Claim C4 is contradicted by the code: with the CSV directory missing,
`os.listdir` raises `FileNotFoundError` before the catalog is built; with
the directory present but no matching csv file, the franchise catalog is
indeed empty but the layout's selection of the first dict value raises
`IndexError` — in neither case does startup complete. -/
theorem startup_crashes_without_csvs :
    startup none = Except.error "FileNotFoundError" ∧
    franchises ["readme.txt", "notes.csv"] = [] ∧
    startup (some ["readme.txt", "notes.csv"]) = Except.error "IndexError" :=
  ⟨rfl, rfl, rfl⟩

end MovieDash
